import Mathlib

/-!
Verification development for the Logan events explorer
(`logan_events_client.py` and `app.py`).

The development shallowly embeds the response-recovery layer of
`LoganEventsClient.get_events`, the rendering partition of
`display_results`, and the best-effort date projection
`parse_event_date`.  Python strings are modelled as Lean `String`
(lists of unicode scalar values); `json.loads` is modelled by an
executable recursive-descent parser over the same grammar the Python
`json` module accepts in its default strict mode.
-/

set_option maxRecDepth 100000

namespace CitySnaps

/-- JSON values as produced by Python's `json.loads`.  Numbers keep
their source lexeme (Python converts them to `int`/`float`; no claim
depends on numeric arithmetic, so the lexeme is the faithful
float-free representation).  Objects keep their fields in insertion
order with Python `dict` semantics: a repeated key overwrites the
value in place (see `insertField`). -/
inductive Json where
  | null
  | bool (b : Bool)
  | num (lexeme : String)
  | str (s : String)
  | arr (items : List Json)
  | obj (fields : List (String × Json))

/-- The character `{`, written via its code point. -/
def lbraceChar : Char := Char.ofNat 123

/-- The character `}`, written via its code point. -/
def rbraceChar : Char := Char.ofNat 125

/-- JSON whitespace skipped by `json.loads` (space, tab, newline, CR). -/
def isJsonWs (c : Char) : Bool :=
  c = ' ' || c = '\t' || c = '\n' || c = '\r'

/-- Drop leading JSON whitespace. -/
def skipWs (cs : List Char) : List Char := cs.dropWhile isJsonWs

/-- Value of a hexadecimal digit, as used by `\uXXXX` string escapes. -/
def hexVal (c : Char) : Option Nat :=
  if c.isDigit then some (c.toNat - 48)
  else if 'a' ≤ c ∧ c ≤ 'f' then some (c.toNat - 87)
  else if 'A' ≤ c ∧ c ≤ 'F' then some (c.toNat - 55)
  else none

/-- Combine four hex digits into a code point. -/
def hex4 (a b c d : Char) : Option Nat :=
  match hexVal a, hexVal b, hexVal c, hexVal d with
  | some x, some y, some z, some w => some (((x * 16 + y) * 16 + z) * 16 + w)
  | _, _, _, _ => none

/-- Body of a JSON string literal, after the opening quote: the model of
the Python `json` scanner's `scanstring` in strict mode.  Control
characters below `0x20` are rejected; the escapes are exactly
`\" \\ \/ \b \f \n \r \t \uXXXX`, with UTF-16 surrogate pairs combined.
A lone surrogate (which Python keeps as an unpaired code unit) is mapped
through `Char.ofNat`, which collapses it to `NUL`; this changes the
decoded character but never whether the string is accepted.
Returns the decoded characters and the remaining input. -/
def parseStrChars : Nat → List Char → Option (List Char × List Char)
  | 0, _ => none
  | _, [] => none
  | fuel + 1, c :: rest =>
    if c = '"' then some ([], rest)
    else if c = '\\' then
      match rest with
      | [] => none
      | e :: rest2 =>
        if e = '"' then (parseStrChars fuel rest2).map (fun p => ('"' :: p.1, p.2))
        else if e = '\\' then (parseStrChars fuel rest2).map (fun p => ('\\' :: p.1, p.2))
        else if e = '/' then (parseStrChars fuel rest2).map (fun p => ('/' :: p.1, p.2))
        else if e = 'b' then (parseStrChars fuel rest2).map (fun p => (Char.ofNat 8 :: p.1, p.2))
        else if e = 'f' then (parseStrChars fuel rest2).map (fun p => (Char.ofNat 12 :: p.1, p.2))
        else if e = 'n' then (parseStrChars fuel rest2).map (fun p => ('\n' :: p.1, p.2))
        else if e = 'r' then (parseStrChars fuel rest2).map (fun p => ('\r' :: p.1, p.2))
        else if e = 't' then (parseStrChars fuel rest2).map (fun p => ('\t' :: p.1, p.2))
        else if e = 'u' then
          match rest2 with
          | h1 :: h2 :: h3 :: h4 :: rest3 =>
            match hex4 h1 h2 h3 h4 with
            | none => none
            | some v =>
              if 0xD800 ≤ v ∧ v ≤ 0xDBFF then
                match rest3 with
                | '\\' :: 'u' :: g1 :: g2 :: g3 :: g4 :: rest4 =>
                  match hex4 g1 g2 g3 g4 with
                  | some w =>
                    if 0xDC00 ≤ w ∧ w ≤ 0xDFFF then
                      (parseStrChars fuel rest4).map
                        (fun p =>
                          (Char.ofNat (0x10000 + (v - 0xD800) * 0x400 + (w - 0xDC00)) :: p.1,
                           p.2))
                    else (parseStrChars fuel rest3).map (fun p => (Char.ofNat v :: p.1, p.2))
                  | none => (parseStrChars fuel rest3).map (fun p => (Char.ofNat v :: p.1, p.2))
                | _ => (parseStrChars fuel rest3).map (fun p => (Char.ofNat v :: p.1, p.2))
              else (parseStrChars fuel rest3).map (fun p => (Char.ofNat v :: p.1, p.2))
          | _ => none
        else none
    else if c.toNat < 32 then none
    else (parseStrChars fuel rest).map (fun p => (c :: p.1, p.2))

/-- Scanner for JSON number lexemes, the model of the Python `json`
module's `NUMBER_RE`: `-?(0|[1-9]\d*)(\.\d+)?([eE][-+]?\d+)?`.
Returns the matched lexeme and the remaining input. -/
def scanNumber (cs : List Char) : Option (String × List Char) :=
  let p := match cs with
    | '-' :: r => (true, r)
    | _ => (false, cs)
  let neg := p.1
  let cs1 := p.2
  let intPart : Option (List Char × List Char) :=
    match cs1 with
    | '0' :: r => some (['0'], r)
    | c :: r =>
      if c.isDigit then
        some (c :: r.takeWhile Char.isDigit, r.dropWhile Char.isDigit)
      else none
    | [] => none
  match intPart with
  | none => none
  | some (ip, r1) =>
    let fr : List Char × List Char :=
      match r1 with
      | '.' :: r2 =>
        if (r2.takeWhile Char.isDigit).isEmpty then ([], r1)
        else ('.' :: r2.takeWhile Char.isDigit, r2.dropWhile Char.isDigit)
      | _ => ([], r1)
    let ex : List Char × List Char :=
      match fr.2 with
      | c :: '+' :: r3 =>
        if (c = 'e' ∨ c = 'E') ∧ ¬ (r3.takeWhile Char.isDigit).isEmpty then
          (c :: '+' :: r3.takeWhile Char.isDigit, r3.dropWhile Char.isDigit)
        else ([], fr.2)
      | c :: '-' :: r3 =>
        if (c = 'e' ∨ c = 'E') ∧ ¬ (r3.takeWhile Char.isDigit).isEmpty then
          (c :: '-' :: r3.takeWhile Char.isDigit, r3.dropWhile Char.isDigit)
        else ([], fr.2)
      | c :: r3 =>
        if (c = 'e' ∨ c = 'E') ∧ ¬ (r3.takeWhile Char.isDigit).isEmpty then
          (c :: r3.takeWhile Char.isDigit, r3.dropWhile Char.isDigit)
        else ([], fr.2)
      | [] => ([], fr.2)
    let lex := (if neg then ['-'] else []) ++ ip ++ fr.1 ++ ex.1
    some (String.mk lex, ex.2)

/-- Insert a key/value pair with Python `dict` semantics: a repeated
key overwrites the existing value in place, otherwise the pair is
appended (insertion order is preserved). -/
def insertField (fs : List (String × Json)) (k : String) (v : Json) :
    List (String × Json) :=
  match fs with
  | [] => [(k, v)]
  | (k0, v0) :: rest =>
    if k0 = k then (k0, v) :: rest else (k0, v0) :: insertField rest k v

/-- Is `pre` a prefix of `cs`? -/
def listStarts : List Char → List Char → Bool
  | [], _ => true
  | _ :: _, [] => false
  | p :: ps, c :: cs => p == c && listStarts ps cs

mutual

/-- One JSON value at the head of the input: the model of the Python
`json` scanner's `_scan_once` with its default configuration, which
additionally accepts the constants `NaN`, `Infinity` and `-Infinity`
(kept as number lexemes here).  Fuel only bounds the recursion; at
every recursive call at least one input character has been consumed
since at most one fuel step earlier, so `2 * length + 4` fuel (as
supplied by `pyJsonLoads`) never runs out on accepted inputs. -/
def parseVal : Nat → List Char → Option (Json × List Char)
  | 0, _ => none
  | fuel + 1, cs =>
    match cs with
    | [] => none
    | c :: rest =>
      if c = '"' then
        match parseStrChars (rest.length + 1) rest with
        | some (sChars, r) => some (Json.str (String.mk sChars), r)
        | none => none
      else if c = lbraceChar then
        let t := skipWs rest
        match t with
        | [] => none
        | x :: r2 =>
          if x = rbraceChar then some (Json.obj [], r2)
          else
            match parseObjItems fuel t [] with
            | some (fs, r3) => some (Json.obj fs, r3)
            | none => none
      else if c = '[' then
        let t := skipWs rest
        match t with
        | [] => none
        | x :: r2 =>
          if x = ']' then some (Json.arr [], r2)
          else
            match parseArrItems fuel t [] with
            | some (items, r3) => some (Json.arr items, r3)
            | none => none
      else if listStarts ("null").data cs then some (Json.null, cs.drop 4)
      else if listStarts ("true").data cs then some (Json.bool true, cs.drop 4)
      else if listStarts ("false").data cs then some (Json.bool false, cs.drop 5)
      else if listStarts ("NaN").data cs then some (Json.num ("NaN"), cs.drop 3)
      else if listStarts ("Infinity").data cs then some (Json.num ("Infinity"), cs.drop 8)
      else if listStarts ("-Infinity").data cs then some (Json.num ("-Infinity"), cs.drop 9)
      else
        match scanNumber cs with
        | some (lex, r) => some (Json.num lex, r)
        | none => none

/-- Comma-separated array items, positioned at a value (whitespace
already skipped); model of the loop in the Python scanner's
`JSONArray`. -/
def parseArrItems : Nat → List Char → List Json → Option (List Json × List Char)
  | 0, _, _ => none
  | fuel + 1, cs, acc =>
    match parseVal fuel cs with
    | none => none
    | some (v, rest) =>
      match skipWs rest with
      | [] => none
      | x :: r2 =>
        if x = ',' then parseArrItems fuel (skipWs r2) (acc ++ [v])
        else if x = ']' then some (acc ++ [v], r2)
        else none

/-- Comma-separated object members, positioned at a key (whitespace
already skipped); model of the loop in the Python scanner's
`JSONObject` in strict mode (keys must be string literals, no trailing
comma). -/
def parseObjItems : Nat → List Char → List (String × Json) →
    Option (List (String × Json) × List Char)
  | 0, _, _ => none
  | fuel + 1, cs, acc =>
    match cs with
    | '"' :: rest =>
      match parseStrChars (rest.length + 1) rest with
      | none => none
      | some (kChars, r1) =>
        match skipWs r1 with
        | ':' :: r2 =>
          match parseVal fuel (skipWs r2) with
          | none => none
          | some (v, r3) =>
            let acc2 := insertField acc (String.mk kChars) v
            match skipWs r3 with
            | [] => none
            | x :: r4 =>
              if x = ',' then parseObjItems fuel (skipWs r4) acc2
              else if x = rbraceChar then some (acc2, r4)
              else none
        | _ => none
    | _ => none

end

/-- The model of Python `json.loads`: skip leading whitespace, read one
value, and require that only whitespace remains (otherwise `json.loads`
raises `JSONDecodeError: Extra data`).  `none` models a raised
`json.JSONDecodeError`. -/
def pyJsonLoads (cs : List Char) : Option Json :=
  match parseVal (2 * cs.length + 4) (skipWs cs) with
  | some (j, rest) => if (skipWs rest).isEmpty then some j else none
  | none => none

/-- Index of the first occurrence of `c`, the model of Python
`str.find` (which returns `-1`, modelled as `none`, when absent). -/
def firstIdx (c : Char) : List Char → Option Nat
  | [] => none
  | x :: xs => if x = c then some 0 else (firstIdx c xs).map (fun n => n + 1)

/-- Index of the last occurrence of `c`, the model of Python
`str.rfind`. -/
def lastIdx (c : Char) (cs : List Char) : Option Nat :=
  (firstIdx c cs.reverse).map (fun i => cs.length - 1 - i)

/-- Index of the first occurrence of the substring `sep`, the model of
the search Python `str.split(sep)` performs for each piece. -/
def findSub (sep : List Char) : List Char → Option Nat
  | [] => if sep.isEmpty then some 0 else none
  | c :: cs =>
    if listStarts sep (c :: cs) then some 0
    else (findSub sep cs).map (fun n => n + 1)

/-- Python `str.strip()` restricted to the ASCII whitespace characters
Lean's `Char.isWhitespace` knows (space, tab, CR, LF); the inputs the
claims exercise contain no other Python whitespace. -/
def pyStrip (cs : List Char) : List Char :=
  ((cs.dropWhile Char.isWhitespace).reverse.dropWhile Char.isWhitespace).reverse

/-- The literal news marker searched for in the raw response text. -/
def newsMarker : List Char := ("In news,").data

/-- The `news_text` computed by `get_events` (lines 109-113 of
`logan_events_client.py`): if the marker `"In news,"` occurs in the
raw text, `response_content.split("In news,")[1].strip()` — the text
strictly between the first occurrence and the next occurrence (or the
end of the text), stripped.  `none` models `news_text is None`. -/
def newsTextOf (cs : List Char) : Option String :=
  match findSub newsMarker cs with
  | none => none
  | some i =>
    let rest := cs.drop (i + newsMarker.length)
    match findSub newsMarker rest with
    | none => some (String.mk (pyStrip rest))
    | some j => some (String.mk (pyStrip (rest.take j)))

/-- The synthetic news object appended by `get_events`
(`{"type": "news", "content": news_text}`). -/
def newsObj (t : String) : Json :=
  Json.obj [("type", Json.str ("news")), ("content", Json.str t)]

/-- The error dictionary `{"error": ..., "raw_response": ...}` returned
by `get_events` on failure. -/
structure FailureInfo where
  error : String
  raw_response : String
deriving DecidableEq

/-- Dynamic result of `get_events`: either the events list or the
error dictionary. -/
inductive NormResult where
  | events (items : List Json)
  | failure (f : FailureInfo)

/-- The response-normalization performed by
`LoganEventsClient.get_events` (lines 98-128 of
`logan_events_client.py`) on the raw response text: locate the first
`[` and the last `]` (failing with "No JSON data found in response"
when either is absent), `json.loads` the inclusive slice between them
(failing with "Failed to parse JSON response" on a decode error), then
append the synthetic news object when the `"In news,"` heuristic
yields non-empty text.  A nonempty slice always begins with `[`, so a
successful `json.loads` always yields an array; the catch-all branch
therefore only fires on decode errors. -/
def get_events_norm (s : String) : NormResult :=
  match firstIdx ('[') s.data with
  | none => NormResult.failure ⟨"No JSON data found in response", s⟩
  | some start_index =>
    match lastIdx (']') s.data with
    | none => NormResult.failure ⟨"No JSON data found in response", s⟩
    | some last =>
      match pyJsonLoads ((s.data.drop start_index).take (last + 1 - start_index)) with
      | some (Json.arr events) =>
        match newsTextOf s.data with
        | none => NormResult.events events
        | some t =>
          if t = "" then NormResult.events events
          else NormResult.events (events ++ [newsObj t])
      | _ => NormResult.failure ⟨"Failed to parse JSON response", s⟩

/-- The slice `response_content[start_index:end_index]` that
`get_events` hands to `json.loads` (empty when either bracket is
absent, a case `get_events_norm` never reaches this computation in). -/
def extracted (s : String) : List Char :=
  match firstIdx ('[') s.data with
  | none => []
  | some start_index =>
    match lastIdx (']') s.data with
    | none => []
    | some last => (s.data.drop start_index).take (last + 1 - start_index)

/-- `LoganEventsClient.get_events` as seen by its caller: the outer
`try` converts any transport exception (modelled as `Except.error`
with the exception message) into the `"API request failed"` error
dictionary, and otherwise normalizes the raw response text.  Totality
of this function is the embedding of the fact that no exception
escapes `get_events`. -/
def get_events (transport : Except String String) : NormResult :=
  match transport with
  | Except.error e => NormResult.failure ⟨"API request failed: " ++ e, ""⟩
  | Except.ok response_content => get_events_norm response_content

/-- The Python value actually returned by `get_events`: a list, or a
dict with keys `"error"` and `"raw_response"`. -/
def get_events_py (transport : Except String String) : Json :=
  match get_events transport with
  | NormResult.events items => Json.arr items
  | NormResult.failure f =>
    Json.obj [("error", Json.str f.error), ("raw_response", Json.str f.raw_response)]

/-- First binding of a key in an object's field list (keys are unique
by construction, see `insertField`). -/
def lookupField : List (String × Json) → String → Option Json
  | [], _ => none
  | (k, v) :: rest, key => if k = key then some v else lookupField rest key

/-- Python `item.get(key)` on a dict (`none` on non-dicts and missing
keys). -/
def Json.get? : Json → String → Option Json
  | Json.obj fs, key => lookupField fs key
  | _, _ => none

/-- Is the value a Python dict? (`isinstance(item, dict)`). -/
def Json.isObj : Json → Bool
  | Json.obj _ => true
  | _ => false

/-- Python `key in item` on a dict. -/
def Json.hasKey (j : Json) (key : String) : Bool := (j.get? key).isSome

/-- The five keys `display_results` requires of an event
(`app.py` line 157). -/
def requiredEventKeys : List String :=
  ["title", "dates", "location", "description", "source"]

/-- The event filter of `display_results` line 157:
`isinstance(item, dict) and all(k in item for k in [...])`. -/
def hasEventShape (j : Json) : Bool :=
  j.isObj && requiredEventKeys.all (fun k => j.hasKey k)

/-- The news filter of `display_results` line 158:
`isinstance(item, dict) and item.get("type") == "news"`. -/
def isNewsItem (j : Json) : Bool :=
  j.isObj &&
    (match j.get? ("type") with
     | some (Json.str s) => s == "news"
     | _ => false)

/-- Python `item.get(key, default)` where the rendering code then uses
the value as a string; fields the claims exercise are strings (a
non-string field would raise `AttributeError` on `.replace` in the
source, which is outside this model). -/
def getStrD (j : Json) (key dflt : String) : String :=
  match j.get? key with
  | some (Json.str s) => s
  | _ => dflt

/-- Replace every occurrence of the character `c` by `rep`, the model
of Python's single-character `str.replace`. -/
def replaceChar (c : Char) (rep : List Char) : List Char → List Char
  | [] => []
  | x :: xs =>
    if x = c then rep ++ replaceChar c rep xs else x :: replaceChar c rep xs

/-- The HTML-escaping used on every displayed field:
`.replace('<', '&lt;').replace('>', '&gt;')`. -/
def sanitize (s : String) : String :=
  String.mk (replaceChar ('>') (("&gt;").data) (replaceChar ('<') (("&lt;").data) s.data))

/-- The source line of an event card (`app.py` lines 174-188): the
displayed text is the escaped URL, or `"Invalid Source URL"` when the
URL starts with neither accepted scheme — but the anchor tag is
emitted either way, with the raw `source_url` as its `href`. -/
def renderSourceAnchor (source_url : String) : String :=
  let source_display :=
    if listStarts (("http://").data) source_url.data
        || listStarts (("https://").data) source_url.data
    then sanitize source_url
    else "Invalid Source URL"
  "<a href=\"" ++ source_url ++ "\" target=\"_blank\">" ++ source_display ++ "</a>"

/-- The HTML card rendered for one event (`app.py` lines 170-190);
layout whitespace of the f-string is elided, tag structure and
content are kept. -/
def renderCard (e : Json) : String :=
  "<div class=\"event-card\">" ++
    "<div class=\"event-title\">" ++ sanitize (getStrD e ("title") ("N/A")) ++ "</div>" ++
    "<div class=\"event-date\">📅 " ++ sanitize (getStrD e ("dates") ("N/A")) ++ "</div>" ++
    "<div class=\"event-location\">📍 " ++ sanitize (getStrD e ("location") ("N/A")) ++ "</div>" ++
    "<div class=\"event-description\">" ++ sanitize (getStrD e ("description") ("N/A")) ++ "</div>" ++
    "<div class=\"event-source\">Source: " ++ renderSourceAnchor (getStrD e ("source") ("#")) ++ "</div>" ++
  "</div>"

/-- A normalized calendar date (Python `datetime` restricted to its
date fields, the only ones this program uses). -/
structure Date where
  year : Nat
  month : Nat
  day : Nat
deriving DecidableEq

/-- Gregorian leap year, as validated by the `datetime` constructor. -/
def isLeap (y : Nat) : Bool :=
  y % 4 == 0 && (y % 100 != 0 || y % 400 == 0)

/-- Days in a month, as validated by the `datetime` constructor. -/
def daysInMonth (y m : Nat) : Nat :=
  if m = 2 then (if isLeap y then 29 else 28)
  else if m = 4 ∨ m = 6 ∨ m = 9 ∨ m = 11 then 30
  else 31

/-- The `datetime(year, month, day)` constructor: `some` on a valid
calendar date in years 1-9999, `none` modelling a raised
`ValueError`. -/
def mkValidDate (y m d : Nat) : Option Date :=
  if 1 ≤ y ∧ y ≤ 9999 ∧ 1 ≤ m ∧ m ≤ 12 ∧ 1 ≤ d ∧ d ≤ daysInMonth y m
  then some ⟨y, m, d⟩ else none

/-- Case-insensitive prefix match (strptime compiles month names into
a case-insensitive regex alternation). -/
def ciStarts : List Char → List Char → Option (List Char)
  | [], rest => some rest
  | _ :: _, [] => none
  | n :: ns, c :: cr => if n.toLower = c.toLower then ciStarts ns cr else none

/-- Full month names for `%B`, in the length-descending order the
strptime regex alternation uses. -/
def monthNamesFull : List (Nat × String) :=
  [(9, "September"), (2, "February"), (11, "November"), (12, "December"),
   (1, "January"), (10, "October"), (8, "August"), (4, "April"),
   (3, "March"), (6, "June"), (7, "July"), (5, "May")]

/-- Abbreviated month names for `%b`. -/
def monthNamesAbbr : List (Nat × String) :=
  [(1, "Jan"), (2, "Feb"), (3, "Mar"), (4, "Apr"), (5, "May"), (6, "Jun"),
   (7, "Jul"), (8, "Aug"), (9, "Sep"), (10, "Oct"), (11, "Nov"), (12, "Dec")]

/-- Match one month name from the alternation, returning its number
and the rest of the input. -/
def matchMonth : List (Nat × String) → List Char → Option (Nat × List Char)
  | [], _ => none
  | (m, name) :: rest, cs =>
    match ciStarts name.data cs with
    | some r => some (m, r)
    | none => matchMonth rest cs

/-- `\s+`: whitespace in a strptime format matches one or more
whitespace characters in the data. -/
def scanWs1 : List Char → Option (List Char)
  | [] => none
  | c :: r => if c.isWhitespace then some (r.dropWhile Char.isWhitespace) else none

/-- `%d`: the strptime day regex `3[01]|[12]\d|0[1-9]|[1-9]`. -/
def scan_d : List Char → Option (Nat × List Char)
  | [] => none
  | [c1] => if c1.isDigit ∧ c1 ≠ '0' then some (c1.toNat - 48, []) else none
  | c1 :: c2 :: r =>
    if c1 = '3' ∧ (c2 = '0' ∨ c2 = '1') then some (30 + (c2.toNat - 48), r)
    else if (c1 = '1' ∨ c1 = '2') ∧ c2.isDigit then
      some ((c1.toNat - 48) * 10 + (c2.toNat - 48), r)
    else if c1 = '0' ∧ c2.isDigit ∧ c2 ≠ '0' then some (c2.toNat - 48, r)
    else if c1.isDigit ∧ c1 ≠ '0' then some (c1.toNat - 48, c2 :: r)
    else none

/-- `%m`: the strptime month regex `1[0-2]|0[1-9]|[1-9]`. -/
def scan_m : List Char → Option (Nat × List Char)
  | [] => none
  | [c1] => if c1.isDigit ∧ c1 ≠ '0' then some (c1.toNat - 48, []) else none
  | c1 :: c2 :: r =>
    if c1 = '1' ∧ (c2 = '0' ∨ c2 = '1' ∨ c2 = '2') then some (10 + (c2.toNat - 48), r)
    else if c1 = '0' ∧ c2.isDigit ∧ c2 ≠ '0' then some (c2.toNat - 48, r)
    else if c1.isDigit ∧ c1 ≠ '0' then some (c1.toNat - 48, c2 :: r)
    else none

/-- `%Y`: exactly four digits. -/
def scan_Y : List Char → Option (Nat × List Char)
  | a :: b :: c :: d :: r =>
    if a.isDigit ∧ b.isDigit ∧ c.isDigit ∧ d.isDigit then
      some ((((a.toNat - 48) * 10 + (b.toNat - 48)) * 10 + (c.toNat - 48)) * 10
              + (d.toNat - 48), r)
    else none
  | _ => none

/-- A required literal character in a strptime format. -/
def expectChar (c : Char) : List Char → Option (List Char)
  | [] => none
  | x :: r => if x = c then some r else none

/-- `datetime.strptime(s, "%B %d, %Y")`: full month name, whitespace,
day, a literal comma, whitespace, four-digit year, end of input,
validated by the `datetime` constructor. -/
def strptime_BdY (cs : List Char) : Option Date :=
  match matchMonth monthNamesFull cs with
  | none => none
  | some (m, r1) =>
    match scanWs1 r1 with
    | none => none
    | some r2 =>
      match scan_d r2 with
      | none => none
      | some (d, r3) =>
        match expectChar (',') r3 with
        | none => none
        | some r4 =>
          match scanWs1 r4 with
          | none => none
          | some r5 =>
            match scan_Y r5 with
            | some (y, []) => mkValidDate y m d
            | _ => none

/-- `datetime.strptime(s, "%b %d, %Y")` with abbreviated month
names. -/
def strptime_bdY (cs : List Char) : Option Date :=
  match matchMonth monthNamesAbbr cs with
  | none => none
  | some (m, r1) =>
    match scanWs1 r1 with
    | none => none
    | some r2 =>
      match scan_d r2 with
      | none => none
      | some (d, r3) =>
        match expectChar (',') r3 with
        | none => none
        | some r4 =>
          match scanWs1 r4 with
          | none => none
          | some r5 =>
            match scan_Y r5 with
            | some (y, []) => mkValidDate y m d
            | _ => none

/-- `datetime.strptime(s, "%m/%d/%Y")`. -/
def strptime_mdY (cs : List Char) : Option Date :=
  match scan_m cs with
  | none => none
  | some (m, r1) =>
    match expectChar ('/') r1 with
    | none => none
    | some r2 =>
      match scan_d r2 with
      | none => none
      | some (d, r3) =>
        match expectChar ('/') r3 with
        | none => none
        | some r4 =>
          match scan_Y r4 with
          | some (y, []) => mkValidDate y m d
          | _ => none

/-- `datetime.strptime(s, "%Y-%m-%d")`. -/
def strptime_Ymd (cs : List Char) : Option Date :=
  match scan_Y cs with
  | none => none
  | some (y, r1) =>
    match expectChar ('-') r1 with
    | none => none
    | some r2 =>
      match scan_m r2 with
      | none => none
      | some (m, r3) =>
        match expectChar ('-') r3 with
        | none => none
        | some r4 =>
          match scan_d r4 with
          | some (d, []) => mkValidDate y m d
          | _ => none

/-- Python `str.split()` with no argument: split on whitespace runs,
dropping empty pieces (restricted to the ASCII whitespace of
`Char.isWhitespace`, which covers the claims' inputs). -/
def pySplitWsAux : List Char → List Char → List String
  | [], acc => if acc.isEmpty then [] else [String.mk acc.reverse]
  | c :: cs, acc =>
    if c.isWhitespace then
      if acc.isEmpty then pySplitWsAux cs []
      else String.mk acc.reverse :: pySplitWsAux cs []
    else pySplitWsAux cs (c :: acc)

/-- See `pySplitWsAux`. -/
def pySplitWs (s : String) : List String := pySplitWsAux s.data []

/-- Python `" ".join(parts)`. -/
def joinSpace : List String → String
  | [] => ""
  | [x] => x
  | x :: xs => x ++ " " ++ joinSpace xs

/-- Python `.replace(',', '')`: remove every comma. -/
def removeCommas (cs : List Char) : List Char := cs.filter (fun c => c != ',')

/-- Numeric value of a list of decimal digits (Python `int` on a
string `str.isdigit` accepted; `isdigit` is modelled on ASCII
digits). -/
def digitsVal (cs : List Char) : Nat :=
  cs.foldl (fun acc c => acc * 10 + (c.toNat - 48)) 0

/-- The Date Projector `parse_event_date` (`app.py` lines 94-123):
join the first three whitespace-separated tokens, strip commas, try
the four strptime formats in order, and on failure fall back to the
first purely-numeric four-character token as a year combined with the
current month and day (`nowMonth`/`nowDay`); `none` models `return
None`.  An invalid fallback date (`ValueError` in the `datetime`
constructor) is swallowed by the bare `except`, yielding `None`. -/
def parse_event_date (date_string : String) (nowMonth nowDay : Nat) : Option Date :=
  let parts := pySplitWs date_string
  let potential := removeCommas (joinSpace (parts.take 3)).data
  match strptime_BdY potential with
  | some d => some d
  | none =>
    match strptime_bdY potential with
    | some d => some d
    | none =>
      match strptime_mdY potential with
      | some d => some d
      | none =>
        match strptime_Ymd potential with
        | some d => some d
        | none =>
          match parts.find? (fun p => p.data.all Char.isDigit && p.data.length == 4) with
          | some y => mkValidDate (digitsVal y.data) nowMonth nowDay
          | none => none

/-- One row of the calendar table (`app.py` lines 198-202). -/
structure CalendarEntry where
  date : Date
  event : String
  location : String

/-- The calendar rows built from the filtered events (`app.py` lines
194-204); the subsequent pandas date-sort is presentation. -/
def calendarOf (nowMonth nowDay : Nat) (events : List Json) : List CalendarEntry :=
  events.filterMap fun e =>
    (parse_event_date (getStrD e ("dates") ("")) nowMonth nowDay).map fun d =>
      { date := d
        event := getStrD e ("title") ("N/A")
        location := getStrD e ("location") ("N/A") }

/-- The sanitized news blurb shown for a news item (`app.py` lines
220-221): `news_items[0].get("content", "No news content available.")`
HTML-escaped. -/
def newsBlurbOf (n : Json) : String :=
  sanitize (getStrD n ("content") ("No news content available."))

/-- Everything the non-error, non-empty branch of `display_results`
renders. -/
structure Page where
  events : List Json
  cards : List String
  calendar : List CalendarEntry
  newsItem : Option Json
  newsBlurb : Option String

/-- The page built from a nonempty parsed list (`app.py` lines
156-227): partition into events (all five keys) and news items
(`type == "news"`), render one card per event, the calendar rows, and
the first news item's blurb (further news items are dropped). -/
def pageFor (nowMonth nowDay : Nat) (items : List Json) : Page :=
  let events := items.filter hasEventShape
  let news_items := items.filter isNewsItem
  { events := events
    cards := events.map renderCard
    calendar := calendarOf nowMonth nowDay events
    newsItem := news_items.head?
    newsBlurb := news_items.head?.map newsBlurbOf }

/-- The data shapes `display_results` receives from the app: `None`
(before any load), the list returned by `get_events`, or an error
dictionary (`get_events` failures and `fetch_events` error dicts share
the `FailureInfo` shape). -/
inductive DisplayData where
  | noneData
  | pyList (items : List Json)
  | errorDict (f : FailureInfo)

/-- What `display_results` renders: the empty-state notice, the error
report (message plus the raw response shown verbatim in a code block),
or a page of cards/calendar/news. -/
inductive RenderOutput where
  | emptyNotice (msg : String)
  | errorReport (msg : String) (raw : Option String)
  | page (p : Page)

/-- The empty-state notice (`app.py` lines 127-133): a warning after a
user search, an info message otherwise. -/
def noticeText (searchTriggered : Bool) : String :=
  if searchTriggered then "No events found matching your search criteria."
  else "No events found for today, or still loading."

/-- `display_results` (`app.py` lines 125-227) on the data shapes the
app produces.  Python's falsiness check `if not data_to_display:`
sends both `None` and the empty list to the empty-state notice before
the error-dict check; an error dict (always nonempty) reaches the
error branch, which shows the reason via `st.error` and the raw
response verbatim via `st.code`. -/
def display_results (searchTriggered : Bool) (nowMonth nowDay : Nat) :
    DisplayData → RenderOutput
  | DisplayData.noneData => RenderOutput.emptyNotice (noticeText searchTriggered)
  | DisplayData.pyList items =>
    if items.isEmpty then RenderOutput.emptyNotice (noticeText searchTriggered)
    else RenderOutput.page (pageFor nowMonth nowDay items)
  | DisplayData.errorDict f =>
    RenderOutput.errorReport ("An error occurred: " ++ f.error) (some f.raw_response)

/-- A shape-conformant event object, used as a concrete witness
input. -/
def sampleEvent : Json :=
  Json.obj [("title", Json.str ("Toddler Time")),
            ("dates", Json.str ("04/01/2025")),
            ("location", Json.str ("Library")),
            ("description", Json.str ("Story time")),
            ("source", Json.str ("http://example.com/library"))]

/-- An object that is simultaneously event-shaped (all five keys) and
news-shaped (`type == "news"`), used as a concrete witness input. -/
def sampleNewsEvent : Json :=
  Json.obj [("title", Json.str ("Fair")),
            ("dates", Json.str ("04/02/2025")),
            ("location", Json.str ("Park")),
            ("description", Json.str ("County fair")),
            ("source", Json.str ("https://example.com/fair")),
            ("type", Json.str ("news")),
            ("content", Json.str ("Road work continues."))]

/-- The news object with content `"X"`, as parsed from the
counterexample input of claim C2. -/
def sampleNewsX : Json :=
  Json.obj [("type", Json.str ("news")), ("content", Json.str ("X"))]

/-- If `c` does not occur, `str.find` reports absence. -/
theorem firstIdx_eq_none_of_not_mem (c : Char) (cs : List Char) (h : c ∉ cs) :
    firstIdx c cs = none := by
  induction cs with
  | nil => rfl
  | cons x xs ih =>
    simp only [List.mem_cons, not_or] at h
    have hx : ¬ x = c := fun hxc => h.1 (hxc ▸ rfl)
    simp [firstIdx, hx, ih h.2]

/-- If `c` occurs, `str.find` reports an index. -/
theorem firstIdx_isSome_of_mem (c : Char) (cs : List Char) (h : c ∈ cs) :
    ∃ i, firstIdx c cs = some i := by
  induction cs with
  | nil => cases h
  | cons x xs ih =>
    by_cases hx : x = c
    · exact ⟨0, by simp [firstIdx, hx]⟩
    · rcases List.mem_cons.mp h with h1 | h1
      · exact absurd h1.symm hx
      · rcases ih h1 with ⟨i, hi⟩
        exact ⟨i + 1, by simp [firstIdx, hx, hi]⟩

/-- If `c` does not occur, `str.rfind` reports absence. -/
theorem lastIdx_eq_none_of_not_mem (c : Char) (cs : List Char) (h : c ∉ cs) :
    lastIdx c cs = none := by
  have h2 : c ∉ cs.reverse := fun hm => h (List.mem_reverse.mp hm)
  simp [lastIdx, firstIdx_eq_none_of_not_mem c cs.reverse h2]

/-- `filter`/`countP` agree on how many elements pass. -/
theorem length_filter_eq_countP {α : Type} (p : α → Bool) (l : List α) :
    (l.filter p).length = l.countP p := by
  induction l with
  | nil => rfl
  | cons a l ih =>
    by_cases hp : p a <;> simp [List.filter_cons, List.countP_cons, hp, ih]

/-- C1: the spec expects `parse_event_date "April 7, 2025 10:10 am"` to
yield 2025-04-07, but the code strips commas from the candidate while
its month-name formats still require one, so every format fails and
the year-fallback returns 2025 with the *current* month and day
(exercised here at two different "now"s).  The second half of the
claim, `"04/01/2025" ⇒ 2025-04-01`, does hold. -/
theorem parse_event_date_april_fallback :
    parse_event_date ("April 7, 2025 10:10 am") 10 12 = some ⟨2025, 10, 12⟩
    ∧ parse_event_date ("April 7, 2025 10:10 am") 1 5 = some ⟨2025, 1, 5⟩
    ∧ parse_event_date ("April 7, 2025 10:10 am") 10 12 ≠ some ⟨2025, 4, 7⟩
    ∧ parse_event_date ("04/01/2025") 10 12 = some ⟨2025, 4, 1⟩ := by
  refine ⟨rfl, rfl, ?_, rfl⟩
  intro h
  have h2 : (some (⟨2025, 10, 12⟩ : Date) : Option Date) = some ⟨2025, 4, 7⟩ := h
  injection h2 with h3
  simp at h3

/-- C2 counterexample: the claim says the synthetic news record is
appended "only if no NewsRecord with that content already exists from
the parsed JSON payload".  Here the parsed payload already contains a
news record with content "X", yet the code appends a second identical
one (`events.append` is unconditional), so the result is the
two-element list rather than the one-element list the claim
predicts. -/
theorem news_append_ignores_existing :
    get_events_norm ("[\x7b\"type\": \"news\", \"content\": \"X\"\x7d] In news, X")
      = NormResult.events [sampleNewsX, sampleNewsX]
    ∧ get_events_norm ("[\x7b\"type\": \"news\", \"content\": \"X\"\x7d] In news, X")
      ≠ NormResult.events [sampleNewsX] := by
  have hval :
      get_events_norm ("[\x7b\"type\": \"news\", \"content\": \"X\"\x7d] In news, X")
        = NormResult.events [sampleNewsX, sampleNewsX] := rfl
  refine ⟨hval, fun hcontra => ?_⟩
  rw [hval] at hcontra
  injection hcontra with h3
  simp at h3

/-- C2 amended: whenever the raw text contains the marker "In news,",
the code takes the text strictly between the first occurrence and the
next occurrence (or the end of the text), strips it, and — if the
result is non-empty — appends it as a synthetic NewsRecord
unconditionally, with no check against news records already present in
the parsed payload. -/
theorem news_append_unconditional (s : String) (i j : Nat) (items : List Json)
    (t : String)
    (h1 : firstIdx ('[') s.data = some i)
    (h2 : lastIdx (']') s.data = some j)
    (h3 : pyJsonLoads ((s.data.drop i).take (j + 1 - i)) = some (Json.arr items))
    (h4 : newsTextOf s.data = some t)
    (h5 : t ≠ "") :
    get_events_norm s = NormResult.events (items ++ [newsObj t]) := by
  simp [get_events_norm, h1, h2, h3, h4, h5]

/-- Witness for `news_append_unconditional` at a concrete input. -/
theorem news_append_unconditional_witness :
    get_events_norm ("[] In news, hi") = NormResult.events ([] ++ [newsObj ("hi")]) :=
  news_append_unconditional ("[] In news, hi") 0 1 [] ("hi") rfl rfl rfl rfl
    (by decide)

/-- C3 counterexample: for the non-HTTP source "ftp://example.com" the
renderer does display the text "Invalid Source URL", but — contrary to
the claim — it still emits a clickable anchor, with the raw invalid
URL as its `href`. -/
theorem invalid_source_still_anchor :
    renderSourceAnchor ("ftp://example.com")
      = "<a href=\"ftp://example.com\" target=\"_blank\">Invalid Source URL</a>"
    ∧ (findSub (("<a href=").data)
        (renderSourceAnchor ("ftp://example.com")).data).isSome = true := by
  exact ⟨rfl, rfl⟩

/-- C3 amended: for every source not beginning with `http://` or
`https://`, the renderer shows the text "Invalid Source URL" in place
of the URL, but wraps that text in an anchor whose `href` is the raw
source value. -/
theorem invalid_source_flagged_render (src : String)
    (h1 : listStarts (("http://").data) src.data = false)
    (h2 : listStarts (("https://").data) src.data = false) :
    renderSourceAnchor src
      = "<a href=\"" ++ src ++ "\" target=\"_blank\">" ++ "Invalid Source URL" ++ "</a>" := by
  simp [renderSourceAnchor, h1, h2]

/-- Witness for `invalid_source_flagged_render` at a concrete input. -/
theorem invalid_source_flagged_render_witness :
    renderSourceAnchor ("www.example.com")
      = "<a href=\"" ++ "www.example.com" ++ "\" target=\"_blank\">" ++ "Invalid Source URL" ++ "</a>" :=
  invalid_source_flagged_render ("www.example.com") rfl rfl

/-- C4: for a nonempty parsed list, the page receives exactly the
event-shaped objects (as many as pass the five-key test, unmodified,
one card each), shows only the first news-shaped object, and objects
matching neither shape enter neither collection. -/
theorem display_partition_counts (st : Bool) (nm nd : Nat) (items : List Json)
    (h : items ≠ []) :
    ∃ p : Page,
      display_results st nm nd (DisplayData.pyList items) = RenderOutput.page p
      ∧ p.events = items.filter hasEventShape
      ∧ p.events.length = items.countP hasEventShape
      ∧ p.cards = p.events.map renderCard
      ∧ p.newsItem = (items.filter isNewsItem).head?
      ∧ (∀ e ∈ p.events, e ∈ items)
      ∧ (∀ x, hasEventShape x = false → x ∉ p.events)
      ∧ (∀ x, isNewsItem x = false → x ∉ items.filter isNewsItem) := by
  cases items with
  | nil => exact absurd rfl h
  | cons a as =>
    refine ⟨pageFor nm nd (a :: as), rfl, rfl, ?_, rfl, rfl, ?_, ?_, ?_⟩
    · exact length_filter_eq_countP hasEventShape (a :: as)
    · exact fun e he => (List.mem_filter.mp he).1
    · intro x hx hmem
      have := (List.mem_filter.mp hmem).2
      rw [hx] at this
      cases this
    · intro x hx hmem
      have := (List.mem_filter.mp hmem).2
      rw [hx] at this
      cases this

/-- Witness for `display_partition_counts` at a concrete input. -/
theorem display_partition_counts_witness :
    ∃ p : Page,
      display_results false 1 1 (DisplayData.pyList [sampleEvent]) = RenderOutput.page p
      ∧ p.events = [sampleEvent].filter hasEventShape
      ∧ p.events.length = [sampleEvent].countP hasEventShape
      ∧ p.cards = p.events.map renderCard
      ∧ p.newsItem = ([sampleEvent].filter isNewsItem).head?
      ∧ (∀ e ∈ p.events, e ∈ [sampleEvent])
      ∧ (∀ x, hasEventShape x = false → x ∉ p.events)
      ∧ (∀ x, isNewsItem x = false → x ∉ [sampleEvent].filter isNewsItem) :=
  display_partition_counts false 1 1 [sampleEvent] (List.cons_ne_nil _ _)

/-- C5: when the raw text lacks `[` or lacks `]`, normalization fails
with "No JSON data found in response", carrying the original text. -/
theorem no_brackets_yields_no_json_failure (s : String)
    (h : ('[') ∉ s.data ∨ (']') ∉ s.data) :
    get_events_norm s = NormResult.failure ⟨"No JSON data found in response", s⟩ := by
  rcases h with h | h
  · have h1 : firstIdx ('[') s.data = none := firstIdx_eq_none_of_not_mem _ _ h
    simp [get_events_norm, h1]
  · have h2 : lastIdx (']') s.data = none := lastIdx_eq_none_of_not_mem _ _ h
    cases h1 : firstIdx ('[') s.data <;> simp [get_events_norm, h1, h2]

/-- Witness for `no_brackets_yields_no_json_failure` at a concrete
input. -/
theorem no_brackets_yields_no_json_failure_witness :
    ('[') ∉ ("hello").data
    ∧ get_events_norm ("hello")
        = NormResult.failure ⟨"No JSON data found in response", "hello"⟩ :=
  ⟨by decide, no_brackets_yields_no_json_failure ("hello") (Or.inl (by decide))⟩

/-- C6: when both brackets are present but the inclusive slice between
the first `[` and the last `]` is not valid JSON, normalization fails
with "Failed to parse JSON response", carrying the original text — and
nothing else: no repair is attempted. -/
theorem bad_json_yields_parse_failure (s : String)
    (h1 : ('[') ∈ s.data) (h2 : (']') ∈ s.data)
    (h3 : pyJsonLoads (extracted s) = none) :
    get_events_norm s = NormResult.failure ⟨"Failed to parse JSON response", s⟩ := by
  obtain ⟨i, hi⟩ := firstIdx_isSome_of_mem ('[') s.data h1
  obtain ⟨j0, hj0⟩ := firstIdx_isSome_of_mem (']') s.data.reverse
    (List.mem_reverse.mpr h2)
  have hj : lastIdx (']') s.data = some (s.data.length - 1 - j0) := by
    simp [lastIdx, hj0]
  simp only [extracted, hi, hj] at h3
  simp only [get_events_norm, hi, hj]
  rw [h3]

/-- Witness for `bad_json_yields_parse_failure` at a concrete input. -/
theorem bad_json_yields_parse_failure_witness :
    get_events_norm ("[,]") = NormResult.failure ⟨"Failed to parse JSON response", "[,]"⟩ :=
  bad_json_yields_parse_failure ("[,]") (by decide) (by decide) rfl

/-- C7: an empty recovered events list is a success, not a failure, and
the presentation boundary separates the two: the empty list renders the
empty-state notice while every error dict renders the error message
together with the raw response shown verbatim, and those two render
outputs are never equal. -/
theorem empty_events_ok_distinct_from_failure (st : Bool) (nm nd : Nat)
    (f : FailureInfo) :
    get_events_norm ("[]") = NormResult.events []
    ∧ (∀ g : FailureInfo, NormResult.events ([] : List Json) ≠ NormResult.failure g)
    ∧ display_results st nm nd (DisplayData.pyList [])
        = RenderOutput.emptyNotice (noticeText st)
    ∧ display_results st nm nd (DisplayData.errorDict f)
        = RenderOutput.errorReport ("An error occurred: " ++ f.error) (some f.raw_response)
    ∧ (∀ m r, RenderOutput.emptyNotice (noticeText st) ≠ RenderOutput.errorReport m r) := by
  refine ⟨rfl, ?_, rfl, rfl, ?_⟩
  · intro g h
    exact NormResult.noConfusion h
  · intro m r h
    exact RenderOutput.noConfusion h

/-- C8: normalization is a pure function of the raw response text — the
embedding threads no other state — so two runs on the same text give
identical outcomes. -/
theorem normalization_deterministic (s1 s2 : String) (h : s1 = s2) :
    get_events_norm s1 = get_events_norm s2 := by rw [h]

/-- Witness for `normalization_deterministic` at a concrete input. -/
theorem normalization_deterministic_witness :
    get_events_norm ("abc") = get_events_norm ("abc") :=
  normalization_deterministic ("abc") ("abc") rfl

/-- C9: whatever the transport outcome, `get_events` returns either a
Python list or a dict carrying both the "error" and "raw_response"
keys; totality of the embedded function reflects that both the network
call and the JSON decoding are wrapped in handlers, so no exception
propagates. -/
theorem get_events_returns_list_or_error_dict (t : Except String String) :
    (∃ items, get_events_py t = Json.arr items)
    ∨ ((get_events_py t).isObj = true
        ∧ (get_events_py t).hasKey ("error") = true
        ∧ (get_events_py t).hasKey ("raw_response") = true) := by
  cases t with
  | error e => exact Or.inr ⟨rfl, rfl, rfl⟩
  | ok s =>
    cases hr : get_events_norm s with
    | events items =>
      refine Or.inl ⟨items, ?_⟩
      simp [get_events_py, get_events, hr]
    | failure f =>
      have hobj : get_events_py (Except.ok s)
          = Json.obj [("error", Json.str f.error), ("raw_response", Json.str f.raw_response)] := by
        simp [get_events_py, get_events, hr]
      rw [hobj]
      exact Or.inr ⟨rfl, rfl, rfl⟩

/-- C10: the event/news partition is not exclusive — an object with all
five event keys whose "type" is "news" lands in both filters, so it is
rendered as an event card and, when it is the first news item, also as
the news blurb. -/
theorem overlapping_item_rendered_twice (st : Bool) (nm nd : Nat)
    (items : List Json) (x : Json)
    (hmem : x ∈ items) (hev : hasEventShape x = true) (hnews : isNewsItem x = true) :
    ∃ p : Page,
      display_results st nm nd (DisplayData.pyList items) = RenderOutput.page p
      ∧ x ∈ p.events
      ∧ renderCard x ∈ p.cards
      ∧ x ∈ items.filter isNewsItem
      ∧ ((items.filter isNewsItem).head? = some x
          → p.newsBlurb = some (newsBlurbOf x)) := by
  cases items with
  | nil => cases hmem
  | cons a as =>
    refine ⟨pageFor nm nd (a :: as), rfl, ?_, ?_, ?_, ?_⟩
    · exact List.mem_filter.mpr ⟨hmem, hev⟩
    · exact List.mem_map.mpr ⟨x, List.mem_filter.mpr ⟨hmem, hev⟩, rfl⟩
    · exact List.mem_filter.mpr ⟨hmem, hnews⟩
    · intro hh
      simp [pageFor, hh]

/-- Witness for `overlapping_item_rendered_twice` at a concrete
input. -/
theorem overlapping_item_rendered_twice_witness :
    ∃ p : Page,
      display_results true 2 3 (DisplayData.pyList [sampleNewsEvent]) = RenderOutput.page p
      ∧ sampleNewsEvent ∈ p.events
      ∧ renderCard sampleNewsEvent ∈ p.cards
      ∧ sampleNewsEvent ∈ [sampleNewsEvent].filter isNewsItem
      ∧ (([sampleNewsEvent].filter isNewsItem).head? = some sampleNewsEvent
          → p.newsBlurb = some (newsBlurbOf sampleNewsEvent)) :=
  overlapping_item_rendered_twice true 2 3 [sampleNewsEvent] sampleNewsEvent
    (List.mem_cons_self _ _) rfl rfl

end CitySnaps
